import Mathlib

/-!
# Lab 4: bounded pool of downloader processes

Verification development for the two programs of the repository:

* `Browser2/Browser2.cpp`: the coordinator. It reads `N` and `M`, creates a
  semaphore, a mutex and a manual-reset event, starts `M` downloader processes,
  raises the event on request and waits for the processes in chunks.
* `Downloader2/Downloader2.cpp`: the worker. It opens the three objects, waits on
  `{event, semaphore}`, checks the brackets of a generated text, releases the
  semaphore and exits.

Conventions of the embedding.

* `HANDLE` and `DWORD` are natural numbers; `std::string` is a list of characters;
  `std::vector<T>` is a list; `std::stack<char>` is a list whose head is the top.
* Calls into the operating system are either answered by an explicit reply
  (a field of `BrowserOs` or `DownloaderEnv`), or, for the semaphore and the event,
  evaluated on an explicit state of the kernel objects (`Win32.Kernel`).
* Every program returns its exit status together with the list of the operating
  system calls and log lines it produced, in program order.
-/

namespace Win32

/-- Process and object handles. -/
abbrev HANDLE := Nat

/-- Unsigned 32 bit values of the Windows headers. -/
abbrev DWORD := Nat

/-- The value `WAIT_OBJECT_0` of `winbase.h`. -/
def WAIT_OBJECT_0 : DWORD := 0

/-- The value `WAIT_FAILED` of `winbase.h`, `(DWORD)0xFFFFFFFF`. -/
def WAIT_FAILED : DWORD := 0xFFFFFFFF

/-- The value `ERROR_SUCCESS` of `winerror.h`. -/
def ERROR_SUCCESS : DWORD := 0

/-- What one call of `WaitForMultipleObjects` answers: its return value, and the value
`GetLastError` yields right after it. -/
structure WaitReply where
  waitRes : DWORD
  lastError : DWORD
deriving DecidableEq, Repr

/-- One issued call `WaitForMultipleObjects(n, handles, bWaitAll, INFINITE)`. -/
structure WaitCall where
  handles : List HANDLE
  bWaitAll : Bool
deriving DecidableEq, Repr

/-- The two named kernel objects a downloader waits on. -/
inductive KObject where
  | semaphore
  | event
deriving DecidableEq, Repr

/-- State of the named semaphore (`DownloadSlots`) and of the named manual-reset event
(`BrowserClosingEvent`). -/
structure Kernel where
  semCount : Nat
  semMax : Nat
  eventSet : Bool
deriving DecidableEq, Repr

/-- An object is signaled: the event when it is set, the semaphore when its count is
positive. -/
def Kernel.signaled (k : Kernel) : KObject → Bool
  | .event => k.eventSet
  | .semaphore => decide (0 < k.semCount)

/-- Effect of a wait that is satisfied by an object: a semaphore loses one unit, a
manual-reset event stays set. -/
def Kernel.consume (k : Kernel) : KObject → Kernel
  | .event => k
  | .semaphore => { k with semCount := k.semCount - 1 }

/-- Scan of the handle array of a wait with `bWaitAll = FALSE`: the signaled object
with the smallest index satisfies the wait, only that object is modified, and the
return value is `WAIT_OBJECT_0` plus its index. `none`: nothing is signaled and the
caller stays blocked. -/
def waitAnyFrom (k : Kernel) : List KObject → Nat → Option (DWORD × Kernel)
  | [], _ => none
  | h :: hs, i =>
    if k.signaled h then some (WAIT_OBJECT_0 + i, k.consume h)
    else waitAnyFrom k hs (i + 1)

/-- The call `WaitForMultipleObjects(n, handles, FALSE, INFINITE)`. With `fault = some err`
the call fails: it returns `WAIT_FAILED` and `GetLastError` gives `err`. The result is
the return value, the last error and the kernel state after the call. -/
def WaitForMultipleObjectsAny (k : Kernel) (handles : List KObject)
    (fault : Option DWORD) : Option (DWORD × DWORD × Kernel) :=
  match fault with
  | some err => some (WAIT_FAILED, err, k)
  | none =>
    match waitAnyFrom k handles 0 with
    | none => none
    | some (r, k1) => some (r, ERROR_SUCCESS, k1)

/-- The call `ReleaseSemaphore(h, n, nullptr)`: it fails, changing nothing, when the
count would exceed the maximum. -/
def ReleaseSemaphore (k : Kernel) (n : Nat) : Bool × Kernel :=
  if k.semCount + n ≤ k.semMax then (true, { k with semCount := k.semCount + n })
  else (false, k)

/-- The call `SetEvent(h)` on the manual-reset event. -/
def SetEvent (k : Kernel) : Kernel :=
  { k with eventSet := true }

end Win32

namespace Browser2

open Win32

/-- Replies of the operating system to the coordinator. -/
structure BrowserOs where
  semaphoreCreated : Bool
  mutexCreated : Bool
  eventCreated : Bool
  /-- Reply of `CreateProcessA` for the ordinal and the command line: the process
  handle, or `none` when the call returns `FALSE`. -/
  createProcess : Nat → String → Option HANDLE
  setEventOk : Bool
  /-- Reply of the j-th `WaitForMultipleObjects` call of `WaitAllProcesses`. -/
  waitReply : Nat → List HANDLE → WaitReply

/-- Operating system calls of the coordinator, in program order. -/
inductive BEvent where
  | createSemaphore (lInitialCount lMaximumCount : Int)
  | createMutex (bInitialOwner : Bool)
  | createEvent (bManualReset bInitialState : Bool)
  | closeSemaphore
  | closeMutex
  | closeEvent
  | createProcess (ordinal : Nat) (cmd : String)
  | logClosing
  | setEvent
  | logSetEventFailed
  | wait (call : WaitCall)
  | closeProcess (h : HANDLE)
deriving DecidableEq, Repr

/-- The struct `SyncObjects`: a field is `true` when the handle is not null. -/
structure SyncObjects where
  hSemaphore : Bool
  hMutex : Bool
  hEvent : Bool
deriving DecidableEq, Repr

/-- `CreateNamedSyncObjects` (Browser2.cpp 24-45). -/
def CreateNamedSyncObjects (N : Int) (os : BrowserOs) : Bool × SyncObjects × List BEvent :=
  if !os.semaphoreCreated then
    (false, ⟨false, false, false⟩, [.createSemaphore N N])
  else if !os.mutexCreated then
    (false, ⟨true, false, false⟩, [.createSemaphore N N, .createMutex false])
  else if !os.eventCreated then
    (false, ⟨true, true, false⟩,
      [.createSemaphore N N, .createMutex false, .createEvent true false])
  else
    (true, ⟨true, true, true⟩,
      [.createSemaphore N N, .createMutex false, .createEvent true false])

/-- `CloseSyncObjects` (Browser2.cpp 47-52): closes the handles that are not null. -/
def CloseSyncObjects (objs : SyncObjects) : List BEvent :=
  (if objs.hSemaphore then [BEvent.closeSemaphore] else []) ++
  (if objs.hMutex then [BEvent.closeMutex] else []) ++
  (if objs.hEvent then [BEvent.closeEvent] else [])

/-- `GenerateRandomFileName` (Browser2.cpp 54-61). -/
def GenerateRandomFileName (index : Nat) : String :=
  let extensions := [".jpg", ".pdf", ".zip", ".exe", ".mp4", ".txt", ".docx", ".png"]
  let prefixes := ["photo", "document", "archive", "setup", "video", "text", "file"]
  prefixes.getD (index % 7) "" ++ "_" ++ toString index ++ extensions.getD (index % 8) ""

/-- The command line of downloader `i` (Browser2.cpp 70-72). -/
def commandLine (i : Nat) : String :=
  "Downloader2.exe " ++ toString i ++ " \"" ++ GenerateRandomFileName i ++ "\""

/-- Result of `LaunchDownloaderProcesses`: the returned flag, `outProcessHandles`, and
the `CreateProcessA` calls that were made. -/
structure LaunchResult where
  ok : Bool
  handles : List HANDLE
  attempts : List (Nat × String)
deriving DecidableEq, Repr

/-- One iteration of the loop of `LaunchDownloaderProcesses` (Browser2.cpp 67-105):
a failed launch is logged and the loop continues. -/
def launchStep (createProcess : Nat → String → Option HANDLE)
    (acc : List HANDLE × List (Nat × String)) (i : Nat) : List HANDLE × List (Nat × String) :=
  let cmd := commandLine i
  match createProcess i cmd with
  | none => (acc.1, acc.2 ++ [(i, cmd)])
  | some hProcess => (acc.1 ++ [hProcess], acc.2 ++ [(i, cmd)])

/-- `LaunchDownloaderProcesses` (Browser2.cpp 63-109): `i` runs over `0 .. M-1`. The
count `M` is a natural number: the only caller passes `M > N > 0`, and a negative `M`
would not get past `reserve(M)`. -/
def LaunchDownloaderProcesses (M : Nat)
    (createProcess : Nat → String → Option HANDLE) : LaunchResult :=
  let r := (List.range M).foldl (launchStep createProcess) ([], [])
  ⟨!r.1.isEmpty, r.1, r.2⟩

/-- The loop of `WaitAllProcesses` (Browser2.cpp 116-135) with `kChunk = K`. The state is
`offset` and the calls issued so far; `none` when the fuel runs out. -/
def WaitAllProcessesLoop (K : Nat) (waitReply : Nat → List HANDLE → WaitReply)
    (processes : List HANDLE) : Nat → Nat → List WaitCall → Option (DWORD × List WaitCall)
  | 0, _, _ => none
  | fuel + 1, offset, issued =>
    let total := processes.length
    if offset < total then
      let count := min (total - offset) K
      let slice := (processes.drop offset).take count
      let reply := waitReply issued.length slice
      if reply.waitRes = WAIT_FAILED then
        some (reply.lastError, issued ++ [⟨slice, true⟩])
      else
        WaitAllProcessesLoop K waitReply processes fuel (offset + count)
          (issued ++ [⟨slice, true⟩])
    else
      some (ERROR_SUCCESS, issued)

/-- `WaitAllProcesses` (Browser2.cpp 111-136), `K` standing for `MAXIMUM_WAIT_OBJECTS`:
the returned code and the waits that were issued. -/
def WaitAllProcesses (K : Nat) (waitReply : Nat → List HANDLE → WaitReply)
    (processes : List HANDLE) : Option (DWORD × List WaitCall) :=
  WaitAllProcessesLoop K waitReply processes (processes.length + 1) 0 []

/-- `main` of the coordinator (Browser2.cpp 138-190). `nIn` and `mIn` are what
`std::cin >> N` and `std::cin >> M` extract, `none` when the extraction fails; the
operator is taken to press Enter at line 170. The value of `WaitAllProcesses` is
discarded (line 180). The result is the exit status and the operating system calls
made; `none` when the wait loop does not return. -/
def main (K : Nat) (nIn mIn : Option Int) (os : BrowserOs) : Option (Int × List BEvent) :=
  match nIn with
  | none => some (1, [])
  | some N =>
    if N ≤ 0 then some (1, [])
    else
      match mIn with
      | none => some (1, [])
      | some M =>
        if M ≤ N then some (1, [])
        else
          let created := CreateNamedSyncObjects N os
          if !created.1 then
            some (1, created.2.2 ++ CloseSyncObjects created.2.1)
          else
            let launched := LaunchDownloaderProcesses M.toNat os.createProcess
            let launches := launched.attempts.map (fun a => BEvent.createProcess a.1 a.2)
            if !launched.ok then
              some (1, created.2.2 ++ launches ++ CloseSyncObjects created.2.1)
            else
              match WaitAllProcesses K os.waitReply launched.handles with
              | none => none
              | some (_, waits) =>
                some (0, created.2.2 ++ launches ++ [BEvent.logClosing, BEvent.setEvent] ++
                  (if os.setEventOk then [] else [BEvent.logSetEventFailed]) ++
                  waits.map BEvent.wait ++
                  (launched.handles.filter (fun h => h ≠ 0)).map BEvent.closeProcess ++
                  CloseSyncObjects created.2.1)

/-- Kernel state set up by the creation calls of a coordinator trace: the semaphore
starts at `lInitialCount` with maximum `lMaximumCount`, the event in `bInitialState`. -/
def kernelOfCreation (events : List BEvent) : Kernel :=
  events.foldl (fun k e =>
    match e with
    | .createSemaphore i m => { k with semCount := i.toNat, semMax := m.toNat }
    | .createEvent _ s => { k with eventSet := s }
    | _ => k) ⟨0, 0, false⟩

end Browser2

namespace Downloader2

open Win32

/-- `CheckBracketsBalanced`, the loop (Downloader2.cpp 54-82): the stack `brackets`
and the rest of `text`. -/
def CheckBracketsLoop : List Char → List Char → Bool
  | brackets, [] => brackets.isEmpty
  | brackets, c :: rest =>
    if c = '(' ∨ c = '[' ∨ c = '{' then
      CheckBracketsLoop (c :: brackets) rest
    else if c = ')' then
      match brackets with
      | [] => false
      | top :: below => if top ≠ '(' then false else CheckBracketsLoop below rest
    else if c = ']' then
      match brackets with
      | [] => false
      | top :: below => if top ≠ '[' then false else CheckBracketsLoop below rest
    else if c = '}' then
      match brackets with
      | [] => false
      | top :: below => if top ≠ '{' then false else CheckBracketsLoop below rest
    else
      CheckBracketsLoop brackets rest

/-- `CheckBracketsBalanced` (Downloader2.cpp 51-83). -/
def CheckBracketsBalanced (text : List Char) : Bool :=
  CheckBracketsLoop [] text

/-- The three pairs of brackets. -/
def bracketPairs : List (Char × Char) := [('(', ')'), ('[', ']'), ('{', '}')]

/-- The six bracket characters. -/
def isBracketChar (c : Char) : Bool :=
  c = '(' ∨ c = ')' ∨ c = '[' ∨ c = ']' ∨ c = '{' ∨ c = '}'

/-- Specification side: the well-nested bracket words, generated by the empty word,
concatenation, and wrapping in one matching pair. -/
inductive WellNested : List Char → Prop
  | empty : WellNested []
  | concat {u v : List Char} : WellNested u → WellNested v → WellNested (u ++ v)
  | wrap {o c : Char} {u : List Char} : (o, c) ∈ bracketPairs → WellNested u →
      WellNested (o :: (u ++ [c]))

/-- What the environment answers to one downloader. -/
structure DownloaderEnv where
  semaphoreOpened : Bool
  mutexOpened : Bool
  eventOpened : Bool
  /-- With `some err` the combined wait fails with last error `err`. -/
  waitFault : Option DWORD
  /-- The text `GenerateRandomText` returns. -/
  fileContent : List Char
deriving DecidableEq, Repr

/-- Operating system calls and log lines of a downloader, in program order. -/
inductive DEvent where
  | logOpenFailed
  | waitReturned (waitResult : DWORD)
  | logWaitFailed (err : DWORD)
  | logInterrupted
  | logConnection
  | workUnit
  | logProcessed (bracketsBalanced : Bool)
  | releaseSemaphore (lReleaseCount : Nat) (ok : Bool)
  | logReleaseWarning
  | closeSyncObjects
deriving DecidableEq, Repr

/-- `OpenNamedSyncObjects` (Downloader2.cpp 22-42). -/
def OpenNamedSyncObjects (env : DownloaderEnv) : Bool :=
  if !env.semaphoreOpened then false
  else if !env.mutexOpened then false
  else if !env.eventOpened then false
  else true

/-- The array `waitHandles` (Downloader2.cpp 124): `{ sync.hEvent, sync.hSemaphore }`. -/
def waitHandles : List KObject := [KObject.event, KObject.semaphore]

/-- Where `main` of the downloader stands once the combined wait has been reached. -/
inductive WaitPhase where
  | blocked
  | exited (code : Int) (out : List DEvent) (k : Kernel)
  | acquired (out : List DEvent) (k : Kernel)
deriving DecidableEq, Repr

/-- `main` of the downloader up to the two branches on `waitResult`
(Downloader2.cpp 118-140). -/
def mainUntilWait (env : DownloaderEnv) (k : Kernel) : WaitPhase :=
  if !OpenNamedSyncObjects env then
    .exited 1 [.logOpenFailed] k
  else
    match WaitForMultipleObjectsAny k waitHandles env.waitFault with
    | none => .blocked
    | some (waitResult, err, k1) =>
      if waitResult = WAIT_FAILED then
        .exited 1 [.waitReturned waitResult, .logWaitFailed err, .closeSyncObjects] k1
      else if waitResult = WAIT_OBJECT_0 then
        .exited 0 [.waitReturned waitResult, .logInterrupted, .closeSyncObjects] k1
      else
        .acquired [.waitReturned waitResult] k1

/-- `main` of the downloader after the wait (Downloader2.cpp 142-174): the work unit,
the report, the release of the semaphore and the exit status. -/
def mainAfterWait (env : DownloaderEnv) (k : Kernel) : Int × List DEvent × Kernel :=
  let bracketsBalanced := CheckBracketsBalanced env.fileContent
  let released := ReleaseSemaphore k 1
  (if bracketsBalanced then 0 else 1,
   [.logConnection, .workUnit, .logProcessed bracketsBalanced,
    .releaseSemaphore 1 released.1] ++
   (if released.1 then [] else [.logReleaseWarning]) ++ [.closeSyncObjects],
   released.2)

/-- `main` of the downloader (Downloader2.cpp 99-175) run without interference between
its wait and its release; `none` when the wait never returns. -/
def main (env : DownloaderEnv) (k : Kernel) : Option (Int × List DEvent × Kernel) :=
  match mainUntilWait env k with
  | .blocked => none
  | .exited code out k1 => some (code, out, k1)
  | .acquired out k1 =>
    let r := mainAfterWait env k1
    some (r.1, out ++ r.2.1, r.2.2)

end Downloader2

namespace Protocol

open Win32 Downloader2

/-- Progress of one downloader process. -/
inductive ProcState where
  | queued
  | working
  | exited (code : Int)
deriving DecidableEq, Repr

/-- One downloader process: its environment, its progress and its output so far. -/
structure Worker where
  env : DownloaderEnv
  state : ProcState
  out : List DEvent
deriving DecidableEq, Repr

/-- The shared kernel objects and the downloader processes. -/
structure System where
  kernel : Kernel
  workers : List Worker
deriving DecidableEq, Repr

/-- What the scheduler may do next: let the coordinator set the event, or let downloader
`i` run up to its next operation on the shared objects. -/
inductive Action where
  | setEvent
  | run (i : Nat)
deriving DecidableEq, Repr

/-- A downloader runs: a queued one up to the outcome of its wait (it stays queued while
the wait is blocked), a working one through its release to its exit. The wait and the
release are the only operations on the shared semaphore and event, and each of them is
one step; the log lines are printed under the mutex, which is not part of the state. -/
def Worker.advance (w : Worker) (k : Kernel) : Worker × Kernel :=
  match w.state with
  | .queued =>
    match mainUntilWait w.env k with
    | .blocked => (w, k)
    | .exited code out k1 => (⟨w.env, .exited code, w.out ++ out⟩, k1)
    | .acquired out k1 => (⟨w.env, .working, w.out ++ out⟩, k1)
  | .working =>
    let r := mainAfterWait w.env k
    (⟨w.env, .exited r.1, w.out ++ r.2.1⟩, r.2.2)
  | .exited _ => (w, k)

/-- One step of the system. -/
def System.step (s : System) : Action → System
  | .setEvent => ⟨SetEvent s.kernel, s.workers⟩
  | .run i =>
    match s.workers[i]? with
    | none => s
    | some w => ⟨(w.advance s.kernel).2, s.workers.set i (w.advance s.kernel).1⟩

/-- A run of the system under a schedule. -/
def System.exec (s : System) (schedule : List Action) : System :=
  schedule.foldl System.step s

/-- The state after the coordinator created the objects for capacity `N` (all three
creations succeeding) and started one downloader per environment. -/
def System.init (N : Int) (envs : List DownloaderEnv) : System :=
  ⟨Browser2.kernelOfCreation
      (Browser2.CreateNamedSyncObjects N
        ⟨true, true, true, fun _ _ => none, true, fun _ _ => ⟨0, 0⟩⟩).2.2,
   envs.map (fun e => ⟨e, .queued, []⟩)⟩

/-- Number of downloaders that hold a slot: past the wait, before the release. -/
def System.holders (s : System) : Nat :=
  s.workers.countP (fun w => decide (w.state = ProcState.working))

/-- The `ReleaseSemaphore` calls of an output, in order. -/
def releaseEvents (out : List DEvent) : List DEvent :=
  out.filter (fun e =>
    match e with
    | .releaseSemaphore _ _ => true
    | _ => false)

/-- Number of waits in an output that returned with the semaphore, index 1. -/
def acquisitions (out : List DEvent) : Nat :=
  out.countP (fun e => decide (e = DEvent.waitReturned (WAIT_OBJECT_0 + 1)))

/-- The state of a worker agrees with its output: nothing printed while queued; while
working one acquisition and no release; after the exit either one acquisition with one
successful release of one unit, or neither. -/
def Worker.consistent (w : Worker) : Prop :=
  match w.state with
  | .queued => w.out = []
  | .working => acquisitions w.out = 1 ∧ releaseEvents w.out = []
  | .exited _ =>
    (acquisitions w.out = 1 ∧ releaseEvents w.out = [DEvent.releaseSemaphore 1 true]) ∨
    (acquisitions w.out = 0 ∧ releaseEvents w.out = [])

/-- Invariant of the protocol for capacity N. -/
def System.Inv (N : Nat) (s : System) : Prop :=
  s.kernel.semMax = N ∧ s.kernel.semCount + s.holders = N ∧
    ∀ w ∈ s.workers, w.consistent

end Protocol

/-! ## The bracket checker -/

namespace Downloader2

open Win32

theorem loop_open (s r : List Char) (c : Char) (h : c = '(' ∨ c = '[' ∨ c = '{') :
    CheckBracketsLoop s (c :: r) = CheckBracketsLoop (c :: s) r := by
  simp [CheckBracketsLoop, h]

theorem loop_pair (s r : List Char) (o c : Char) (h : (o, c) ∈ bracketPairs) :
    CheckBracketsLoop (o :: s) (c :: r) = CheckBracketsLoop s r := by
  simp [bracketPairs] at h
  rcases h with ⟨rfl, rfl⟩ | ⟨rfl, rfl⟩ | ⟨rfl, rfl⟩ <;> simp [CheckBracketsLoop]

theorem loop_other (s r : List Char) (c : Char) (h : isBracketChar c = false) :
    CheckBracketsLoop s (c :: r) = CheckBracketsLoop s r := by
  simp [isBracketChar] at h
  simp [CheckBracketsLoop, h]


theorem loop_filter (text : List Char) : ∀ s : List Char,
    CheckBracketsLoop s text = CheckBracketsLoop s (text.filter isBracketChar) := by
  induction text with
  | nil => intro s; rfl
  | cons c rest ih =>
    intro s
    by_cases hb : isBracketChar c = true
    · rw [List.filter_cons_of_pos hb]
      simp only [CheckBracketsLoop]
      split
      · exact ih _
      · split
        · cases s with
          | nil => rfl
          | cons t b => simp only []; split; rfl; exact ih _
        · split
          · cases s with
            | nil => rfl
            | cons t b => simp only []; split; rfl; exact ih _
          · split
            · cases s with
              | nil => rfl
              | cons t b => simp only []; split; rfl; exact ih _
            · exact ih _
    · have hb2 : isBracketChar c = false := by simpa using hb
      rw [List.filter_cons_of_neg hb, loop_other s rest c hb2]
      exact ih s

theorem loop_wellNested {w : List Char} (hw : WellNested w) : ∀ s r : List Char,
    CheckBracketsLoop s (w ++ r) = CheckBracketsLoop s r := by
  induction hw with
  | empty => intro s r; rfl
  | concat _ _ ihu ihv =>
    intro s r
    rw [List.append_assoc, ihu, ihv]
  | @wrap o c u hp _ ih =>
    intro s r
    have ho : o = '(' ∨ o = '[' ∨ o = '{' := by
      simp [bracketPairs] at hp
      rcases hp with ⟨rfl, _⟩ | ⟨rfl, _⟩ | ⟨rfl, _⟩ <;> simp
    rw [List.cons_append, loop_open _ _ _ ho, List.append_assoc, ih]
    exact loop_pair s r o c hp

theorem loop_pop (n : Nat) : ∀ (w : List Char) (o : Char) (s : List Char), w.length ≤ n →
    (∀ x ∈ w, isBracketChar x = true) → CheckBracketsLoop (o :: s) w = true →
    ∃ u v c, w = u ++ c :: v ∧ (o, c) ∈ bracketPairs ∧ WellNested u ∧
      CheckBracketsLoop s v = true := by
  induction n with
  | zero =>
    intro w o s hlen _ h
    have : w = [] := List.length_eq_zero.mp (Nat.le_zero.mp hlen)
    subst this
    simp [CheckBracketsLoop] at h
  | succ n ih =>
    intro w o s hlen hall h
    cases w with
    | nil => simp [CheckBracketsLoop] at h
    | cons x w1 =>
      have hlen1 : w1.length ≤ n := by simpa using hlen
      have hall1 : ∀ y ∈ w1, isBracketChar y = true := fun y hy => hall y (List.mem_cons_of_mem _ hy)
      by_cases hx : x = '(' ∨ x = '[' ∨ x = '{'
      · rw [loop_open _ _ _ hx] at h
        obtain ⟨u1, v1, c1, hw1, hp1, hu1, h1⟩ := ih w1 x (o :: s) hlen1 hall1 h
        have hlenv : v1.length ≤ n := by
          have : w1.length = u1.length + (v1.length + 1) := by rw [hw1]; simp
          omega
        have hallv : ∀ y ∈ v1, isBracketChar y = true := by
          intro y hy
          apply hall1
          rw [hw1]
          simp [hy]
        obtain ⟨u2, v2, c2, hv1, hp2, hu2, h2⟩ := ih v1 o s hlenv hallv h1
        refine ⟨(x :: (u1 ++ [c1])) ++ u2, v2, c2, ?_, hp2, ?_, h2⟩
        · rw [hw1, hv1]; simp
        · exact WellNested.concat (WellNested.wrap hp1 hu1) hu2
      · have hbx := hall x (List.mem_cons_self _ _)
        simp only [not_or] at hx
        obtain ⟨hx1, hx2, hx3⟩ := hx
        simp only [isBracketChar, hx1, hx2, hx3, false_or, decide_eq_true_eq] at hbx
        refine ⟨[], w1, x, rfl, ?_, WellNested.empty, ?_⟩
        · rcases hbx with rfl | rfl | rfl <;>
            · simp [CheckBracketsLoop] at h
              simp [bracketPairs, h.1]
        · rcases hbx with rfl | rfl | rfl <;>
            · simp [CheckBracketsLoop] at h
              exact h.2

theorem loop_complete (n : Nat) : ∀ (w : List Char), w.length ≤ n →
    (∀ x ∈ w, isBracketChar x = true) → CheckBracketsLoop [] w = true → WellNested w := by
  induction n with
  | zero =>
    intro w hlen _ _
    have : w = [] := List.length_eq_zero.mp (Nat.le_zero.mp hlen)
    subst this
    exact WellNested.empty
  | succ n ih =>
    intro w hlen hall h
    cases w with
    | nil => exact WellNested.empty
    | cons x w1 =>
      have hlen1 : w1.length ≤ n := by simpa using hlen
      have hall1 : ∀ y ∈ w1, isBracketChar y = true := fun y hy => hall y (List.mem_cons_of_mem _ hy)
      by_cases hx : x = '(' ∨ x = '[' ∨ x = '{'
      · rw [loop_open _ _ _ hx] at h
        obtain ⟨u, v, c, hw1, hp, hu, hv⟩ := loop_pop n w1 x [] hlen1 hall1 h
        have hlenv : v.length ≤ n := by
          have : w1.length = u.length + (v.length + 1) := by rw [hw1]; simp
          omega
        have hallv : ∀ y ∈ v, isBracketChar y = true := by
          intro y hy
          apply hall1
          rw [hw1]
          simp [hy]
        have hwv := ih v hlenv hallv hv
        have : x :: w1 = (x :: (u ++ [c])) ++ v := by rw [hw1]; simp
        rw [this]
        exact WellNested.concat (WellNested.wrap hp hu) hwv
      · have hbx := hall x (List.mem_cons_self _ _)
        simp only [not_or] at hx
        obtain ⟨hx1, hx2, hx3⟩ := hx
        simp only [isBracketChar, hx1, hx2, hx3, false_or, decide_eq_true_eq] at hbx
        rcases hbx with rfl | rfl | rfl <;> simp [CheckBracketsLoop] at h

/-- C10: CheckBracketsBalanced returns true exactly when the subsequence of the six
bracket characters of the text is a well-nested bracket word; the other characters do
not matter, and the function is defined on every text. -/
theorem CheckBracketsBalanced_iff_wellNested (text : List Char) :
    (CheckBracketsBalanced text = true ↔ WellNested (text.filter isBracketChar)) ∧
    CheckBracketsBalanced text = CheckBracketsBalanced (text.filter isBracketChar) := by
  refine ⟨?_, loop_filter text []⟩
  unfold CheckBracketsBalanced
  rw [loop_filter]
  constructor
  · intro h
    exact loop_complete _ _ (Nat.le_refl _) (fun x hx => (List.mem_filter.mp hx).2) h
  · intro h
    have := loop_wellNested h [] []
    rw [List.append_nil] at this
    rw [this]
    rfl


theorem CheckBracketsBalanced_runs :
    CheckBracketsBalanced ['a', '(', '[', 'x', ']', ')', '{', '}'] = true ∧
    CheckBracketsBalanced ['(', '[', ')', ']'] = false ∧
    CheckBracketsBalanced ['(', '('] = false ∧
    CheckBracketsBalanced [')'] = false ∧
    CheckBracketsBalanced [] = true := by
  decide

/-! ## The downloader -/

theorem wait_on_waitHandles (k : Kernel) :
    waitAnyFrom k waitHandles 0 =
      if k.eventSet = true then some (WAIT_OBJECT_0, k)
      else if 0 < k.semCount then
        some (WAIT_OBJECT_0 + 1, ⟨k.semCount - 1, k.semMax, k.eventSet⟩)
      else none := by
  by_cases he : k.eventSet = true
  · simp [waitHandles, waitAnyFrom, Kernel.signaled, Kernel.consume, he]
  · by_cases hc : 0 < k.semCount
    · simp [waitHandles, waitAnyFrom, Kernel.signaled, Kernel.consume, he, hc]
    · simp [waitHandles, waitAnyFrom, Kernel.signaled, he, hc]

theorem mainUntilWait_open_failed (env : DownloaderEnv) (k : Kernel)
    (h : OpenNamedSyncObjects env = false) :
    mainUntilWait env k = .exited 1 [.logOpenFailed] k := by
  simp [mainUntilWait, h]

theorem mainUntilWait_fault (env : DownloaderEnv) (k : Kernel)
    (h : OpenNamedSyncObjects env = true) (err : DWORD) (hf : env.waitFault = some err) :
    mainUntilWait env k =
      .exited 1 [.waitReturned WAIT_FAILED, .logWaitFailed err, .closeSyncObjects] k := by
  simp [mainUntilWait, h, hf, WaitForMultipleObjectsAny]

theorem mainUntilWait_cancelled (env : DownloaderEnv) (k : Kernel)
    (h : OpenNamedSyncObjects env = true) (hf : env.waitFault = none)
    (he : k.eventSet = true) :
    mainUntilWait env k =
      .exited 0 [.waitReturned WAIT_OBJECT_0, .logInterrupted, .closeSyncObjects] k := by
  simp [mainUntilWait, h, hf, WaitForMultipleObjectsAny, wait_on_waitHandles, he,
    WAIT_OBJECT_0, WAIT_FAILED]

theorem mainUntilWait_acquired (env : DownloaderEnv) (k : Kernel)
    (h : OpenNamedSyncObjects env = true) (hf : env.waitFault = none)
    (he : k.eventSet = false) (hc : 0 < k.semCount) :
    mainUntilWait env k =
      .acquired [.waitReturned (WAIT_OBJECT_0 + 1)] ⟨k.semCount - 1, k.semMax, k.eventSet⟩ := by
  simp [mainUntilWait, h, hf, WaitForMultipleObjectsAny, wait_on_waitHandles, he, hc,
    WAIT_OBJECT_0, WAIT_FAILED]

theorem mainUntilWait_blocked (env : DownloaderEnv) (k : Kernel)
    (h : OpenNamedSyncObjects env = true) (hf : env.waitFault = none)
    (he : k.eventSet = false) (hc : k.semCount = 0) :
    mainUntilWait env k = .blocked := by
  simp [mainUntilWait, h, hf, WaitForMultipleObjectsAny, wait_on_waitHandles, he, hc]

/-- C4: the event is at index 0 of the two-handle wait, and a downloader whose wait is
evaluated while the event is set takes the cancelled branch whatever the semaphore count
is: the kernel state (so the counter) is unchanged, the output holds the interruption
report and no work unit, and the process exits. -/
theorem cancellation_wins_ties (env : DownloaderEnv) (k : Kernel)
    (hopen : OpenNamedSyncObjects env = true) (hwait : env.waitFault = none)
    (hset : k.eventSet = true) :
    waitHandles.get? 0 = some KObject.event ∧
    WaitForMultipleObjectsAny k waitHandles env.waitFault
      = some (WAIT_OBJECT_0, ERROR_SUCCESS, k) ∧
    main env k =
      some (0, [.waitReturned WAIT_OBJECT_0, .logInterrupted, .closeSyncObjects], k) := by
  refine ⟨rfl, ?_, ?_⟩
  · simp [WaitForMultipleObjectsAny, hwait, wait_on_waitHandles, hset]
  · simp [main, mainUntilWait_cancelled env k hopen hwait hset]

theorem cancellation_wins_ties_witness :
    waitHandles.get? 0 = some KObject.event ∧
    WaitForMultipleObjectsAny ⟨3, 3, true⟩ waitHandles none
      = some (WAIT_OBJECT_0, ERROR_SUCCESS, ⟨3, 3, true⟩) ∧
    main ⟨true, true, true, none, ['(', ')']⟩ ⟨3, 3, true⟩ =
      some (0, [.waitReturned WAIT_OBJECT_0, .logInterrupted, .closeSyncObjects],
        ⟨3, 3, true⟩) :=
  cancellation_wins_ties ⟨true, true, true, none, ['(', ')']⟩ ⟨3, 3, true⟩ rfl rfl rfl

/-- C6, as stated, fails: a downloader that finds the event set exits with status 0
although it acquired no slot and performed no work unit. -/
theorem cancelled_downloader_exits_zero :
    main ⟨true, true, true, none, ['(']⟩ ⟨1, 1, true⟩ =
      some (0, [.waitReturned WAIT_OBJECT_0, .logInterrupted, .closeSyncObjects],
        ⟨1, 1, true⟩) ∧
    DEvent.waitReturned (WAIT_OBJECT_0 + 1) ∉
      [DEvent.waitReturned WAIT_OBJECT_0, .logInterrupted, .closeSyncObjects] ∧
    DEvent.workUnit ∉
      [DEvent.waitReturned WAIT_OBJECT_0, .logInterrupted, .closeSyncObjects] := by
  decide

/-- C6, amended: whenever the wait of a downloader is not blocked forever, the process
exits; its status is 0 exactly when it took the cancelled branch or it acquired a slot
and its work unit succeeded, and it is 1 otherwise (open failure, wait failure, failed
work unit). -/
theorem exit_status_zero_iff (env : DownloaderEnv) (k : Kernel)
    (h : OpenNamedSyncObjects env = false ∨ env.waitFault ≠ none ∨ k.eventSet = true ∨
      0 < k.semCount) :
    ∃ code out k1, main env k = some (code, out, k1) ∧
      (code = 0 ↔ (DEvent.logInterrupted ∈ out ∨
        (DEvent.waitReturned (WAIT_OBJECT_0 + 1) ∈ out ∧ DEvent.logProcessed true ∈ out))) ∧
      (code = 0 ∨ code = 1) := by
  by_cases hopen : OpenNamedSyncObjects env = true
  · cases hf : env.waitFault with
    | some err =>
      refine ⟨1, [.waitReturned WAIT_FAILED, .logWaitFailed err, .closeSyncObjects], k,
        ?_, ?_, Or.inr rfl⟩
      · simp [main, mainUntilWait_fault env k hopen err hf]
      · simp [WAIT_FAILED, WAIT_OBJECT_0]
    | none =>
      by_cases he : k.eventSet = true
      · refine ⟨0, [.waitReturned WAIT_OBJECT_0, .logInterrupted, .closeSyncObjects], k,
          ?_, ?_, Or.inl rfl⟩
        · simp [main, mainUntilWait_cancelled env k hopen hf he]
        · simp
      · have he2 : k.eventSet = false := by simpa using he
        have hc : 0 < k.semCount := by
          rcases h with h | h | h | h
          · rw [hopen] at h; cases h
          · exact absurd hf h
          · exact absurd h he
          · exact h
        refine ⟨(mainAfterWait env ⟨k.semCount - 1, k.semMax, k.eventSet⟩).1,
          [.waitReturned (WAIT_OBJECT_0 + 1)] ++
            (mainAfterWait env ⟨k.semCount - 1, k.semMax, k.eventSet⟩).2.1,
          (mainAfterWait env ⟨k.semCount - 1, k.semMax, k.eventSet⟩).2.2, ?_, ?_, ?_⟩
        · simp only [main, mainUntilWait_acquired env k hopen hf he2 hc]
        · simp only [mainAfterWait]
          cases hb : CheckBracketsBalanced env.fileContent <;> simp
        · simp only [mainAfterWait]
          cases hb : CheckBracketsBalanced env.fileContent <;> simp
  · have hopen2 : OpenNamedSyncObjects env = false := by simpa using hopen
    refine ⟨1, [.logOpenFailed], k, ?_, ?_, Or.inr rfl⟩
    · simp [main, mainUntilWait_open_failed env k hopen2]
    · simp

theorem exit_status_zero_iff_witness :
    ∃ code out k1, main ⟨true, true, true, none, ['(', ']']⟩ ⟨2, 2, false⟩
        = some (code, out, k1) ∧
      (code = 0 ↔ (DEvent.logInterrupted ∈ out ∨
        (DEvent.waitReturned (WAIT_OBJECT_0 + 1) ∈ out ∧ DEvent.logProcessed true ∈ out))) ∧
      (code = 0 ∨ code = 1) :=
  exit_status_zero_iff ⟨true, true, true, none, ['(', ']']⟩ ⟨2, 2, false⟩
    (Or.inr (Or.inr (Or.inr (by decide))))

theorem downloader_runs :
    main ⟨true, true, true, none, ['(', ']']⟩ ⟨2, 2, false⟩ =
      some (1, [.waitReturned 1, .logConnection, .workUnit, .logProcessed false,
        .releaseSemaphore 1 true, .closeSyncObjects], ⟨2, 2, false⟩) ∧
    main ⟨true, true, true, none, ['a', '(', ')']⟩ ⟨2, 2, false⟩ =
      some (0, [.waitReturned 1, .logConnection, .workUnit, .logProcessed true,
        .releaseSemaphore 1 true, .closeSyncObjects], ⟨2, 2, false⟩) ∧
    main ⟨true, true, true, some 6, []⟩ ⟨2, 2, false⟩ =
      some (1, [.waitReturned WAIT_FAILED, .logWaitFailed 6, .closeSyncObjects],
        ⟨2, 2, false⟩) ∧
    main ⟨true, true, true, none, []⟩ ⟨0, 2, false⟩ = none := by
  decide

end Downloader2

/-! ## The coordinator -/

namespace Browser2

open Win32

theorem take_min_drop (l : List HANDLE) (offset K : Nat) :
    (l.drop offset).take (min (l.length - offset) K) = (l.drop offset).take K := by
  rcases Nat.le_total (l.length - offset) K with h | h
  · rw [Nat.min_eq_left h]
    rw [List.take_of_length_le (by simp), List.take_of_length_le (by simpa using h)]
  · rw [Nat.min_eq_right h]

theorem waitLoop_success (K : Nat) (hK : 0 < K) (waitReply : Nat → List HANDLE → WaitReply)
    (processes : List HANDLE)
    (hok : ∀ j slice, (waitReply j slice).waitRes ≠ WAIT_FAILED) :
    ∀ (fuel offset : Nat) (issued : List WaitCall), processes.length - offset < fuel →
      ∃ calls : List WaitCall,
        WaitAllProcessesLoop K waitReply processes fuel offset issued
          = some (ERROR_SUCCESS, issued ++ calls) ∧
        (∀ c ∈ calls, c.bWaitAll = true ∧ 1 ≤ c.handles.length ∧ c.handles.length ≤ K) ∧
        (calls.map WaitCall.handles).flatten = processes.drop offset := by
  intro fuel
  induction fuel with
  | zero => intro offset issued h; omega
  | succ fuel ih =>
    intro offset issued hfuel
    by_cases hlt : offset < processes.length
    · have hcount : 1 ≤ min (processes.length - offset) K := by
        apply Nat.le_min.mpr; constructor <;> omega
      have hcountle : min (processes.length - offset) K ≤ processes.length - offset :=
        Nat.min_le_left _ _
      obtain ⟨calls, hrun, hall, hjoin⟩ :=
        ih (offset + min (processes.length - offset) K)
          (issued ++ [⟨(processes.drop offset).take (min (processes.length - offset) K), true⟩])
          (by omega)
      refine ⟨⟨(processes.drop offset).take (min (processes.length - offset) K), true⟩ :: calls,
        ?_, ?_, ?_⟩
      · simp only [WaitAllProcessesLoop, hlt, if_true, hok, if_false]
        rw [hrun]
        simp
      · intro c hc
        rcases List.mem_cons.mp hc with rfl | hc
        · refine ⟨rfl, ?_, ?_⟩
          · simp only [List.length_take, List.length_drop]
            omega
          · simp only [List.length_take, List.length_drop]
            omega
        · exact hall c hc
      · simp only [List.map_cons, List.flatten_cons, hjoin]
        rw [← List.drop_drop]
        exact List.take_append_drop _ _
    · refine ⟨[], ?_, ?_, ?_⟩
      · simp [WaitAllProcessesLoop, hlt]
      · intro c hc; cases hc
      · simp only [List.map_nil, List.flatten_nil]
        rw [List.drop_of_length_le (by omega)]

/-- C1: when every slice wait succeeds and the ceiling K is positive, WaitAllProcesses
returns ERROR_SUCCESS after issuing wait-for-all calls over slices that each hold between
1 and K handles and whose concatenation, in order, is the input list. -/
theorem WaitAllProcesses_chunks (K : Nat) (hK : 0 < K)
    (waitReply : Nat → List HANDLE → WaitReply) (processes : List HANDLE)
    (hok : ∀ j slice, (waitReply j slice).waitRes ≠ WAIT_FAILED) :
    ∃ calls : List WaitCall,
      WaitAllProcesses K waitReply processes = some (ERROR_SUCCESS, calls) ∧
      (∀ c ∈ calls, c.bWaitAll = true ∧ 1 ≤ c.handles.length ∧ c.handles.length ≤ K) ∧
      (calls.map WaitCall.handles).flatten = processes := by
  obtain ⟨calls, hrun, hall, hjoin⟩ :=
    waitLoop_success K hK waitReply processes hok (processes.length + 1) 0 [] (by omega)
  exact ⟨calls, by simpa [WaitAllProcesses] using hrun, hall, by simpa using hjoin⟩


theorem WaitAllProcesses_chunks_witness :
    ∃ calls : List WaitCall,
      WaitAllProcesses 2 (fun _ _ => ⟨WAIT_OBJECT_0, 0⟩) [11, 12, 13, 14, 15, 16, 17]
        = some (ERROR_SUCCESS, calls) ∧
      (∀ c ∈ calls, c.bWaitAll = true ∧ 1 ≤ c.handles.length ∧ c.handles.length ≤ 2) ∧
      (calls.map WaitCall.handles).flatten = [11, 12, 13, 14, 15, 16, 17] :=
  WaitAllProcesses_chunks 2 (by decide) (fun _ _ => ⟨WAIT_OBJECT_0, 0⟩)
    [11, 12, 13, 14, 15, 16, 17] (by intro j slice; simp [WAIT_FAILED, WAIT_OBJECT_0])

theorem WaitAllProcesses_run_below_K :
    WaitAllProcesses 2 (fun _ _ => ⟨WAIT_OBJECT_0, 0⟩) [11]
      = some (ERROR_SUCCESS, [⟨[11], true⟩]) := by decide

theorem WaitAllProcesses_run_equal_K :
    WaitAllProcesses 2 (fun _ _ => ⟨WAIT_OBJECT_0, 0⟩) [11, 12]
      = some (ERROR_SUCCESS, [⟨[11, 12], true⟩]) := by decide

theorem WaitAllProcesses_run_2K_plus_3 :
    WaitAllProcesses 2 (fun _ _ => ⟨WAIT_OBJECT_0, 0⟩) [11, 12, 13, 14, 15, 16, 17]
      = some (ERROR_SUCCESS,
          [⟨[11, 12], true⟩, ⟨[13, 14], true⟩, ⟨[15, 16], true⟩, ⟨[17], true⟩]) := by decide

theorem waitLoop_first_failure (K : Nat) (waitReply : Nat → List HANDLE → WaitReply)
    (processes : List HANDLE) (i err : Nat) (hi : i * K < processes.length)
    (hbefore : ∀ j, j < i →
      (waitReply j ((processes.drop (j * K)).take K)).waitRes ≠ WAIT_FAILED)
    (hfail : (waitReply i ((processes.drop (i * K)).take K)).waitRes = WAIT_FAILED)
    (herr : (waitReply i ((processes.drop (i * K)).take K)).lastError = err) :
    ∀ (d j fuel : Nat) (issued : List WaitCall), j + d = i → issued.length = j → d < fuel →
      WaitAllProcessesLoop K waitReply processes fuel (j * K) issued
        = some (err, issued ++
            (List.range' j (d + 1)).map (fun n => ⟨(processes.drop (n * K)).take K, true⟩)) := by
  intro d
  induction d with
  | zero =>
    intro j fuel issued hj hlen hfuel
    obtain ⟨fuel, rfl⟩ : ∃ f, fuel = f + 1 := ⟨fuel - 1, by omega⟩
    have hji : j = i := by omega
    subst hji
    simp only [WaitAllProcessesLoop, hi, if_true, take_min_drop, hlen, hfail, herr]
    simp [List.range']
  | succ d ih =>
    intro j fuel issued hj hlen hfuel
    obtain ⟨fuel, rfl⟩ : ∃ f, fuel = f + 1 := ⟨fuel - 1, by omega⟩
    have hjlt : j < i := by omega
    have hle : (j + 1) * K ≤ i * K := Nat.mul_le_mul_right K (by omega)
    have hoff : j * K < processes.length := by
      have : j * K ≤ (j + 1) * K := Nat.mul_le_mul_right K (by omega)
      omega
    have hcount : min (processes.length - j * K) K = K := by
      apply Nat.min_eq_right
      have : (j + 1) * K = j * K + K := by ring
      omega
    have hnext : j * K + K = (j + 1) * K := by ring
    have hstep := ih (j + 1) fuel
      (issued ++ [⟨(processes.drop (j * K)).take K, true⟩]) (by omega) (by simp [hlen])
      (by omega)
    simp only [WaitAllProcessesLoop, hoff, if_true, hlen, take_min_drop, hbefore j hjlt,
      if_false, hcount, hnext, hstep]
    simp [List.range']

/-- C2: if the wait on slice i (counted from 0) is the first to fail, WaitAllProcesses
returns the error code of that failure, and the waits it issued are exactly the slices
0..i, each once and in order: nothing is waited twice and nothing after slice i. -/
theorem WaitAllProcesses_first_failure (K : Nat) (hK : 0 < K)
    (waitReply : Nat → List HANDLE → WaitReply)
    (processes : List HANDLE) (i err : Nat) (hi : i * K < processes.length)
    (hbefore : ∀ j, j < i →
      (waitReply j ((processes.drop (j * K)).take K)).waitRes ≠ WAIT_FAILED)
    (hfail : (waitReply i ((processes.drop (i * K)).take K)).waitRes = WAIT_FAILED)
    (herr : (waitReply i ((processes.drop (i * K)).take K)).lastError = err) :
    WaitAllProcesses K waitReply processes
      = some (err, (List.range (i + 1)).map
          (fun n => ⟨(processes.drop (n * K)).take K, true⟩)) := by
  have hlt : i < processes.length + 1 := by
    have : i ≤ i * K := Nat.le_mul_of_pos_right i hK
    omega
  have h := waitLoop_first_failure K waitReply processes i err hi hbefore hfail herr
    i 0 (processes.length + 1) [] (by omega) rfl hlt
  rw [Nat.zero_mul] at h
  rw [WaitAllProcesses, h, List.range_eq_range']
  simp

theorem WaitAllProcesses_first_failure_witness :
    WaitAllProcesses 2 (fun j _ => if j = 1 then ⟨WAIT_FAILED, 6⟩ else ⟨WAIT_OBJECT_0, 0⟩)
        [11, 12, 13, 14, 15, 16, 17]
      = some (6, (List.range (1 + 1)).map
          (fun n => ⟨(([11, 12, 13, 14, 15, 16, 17] : List HANDLE).drop (n * 2)).take 2, true⟩)) :=
  WaitAllProcesses_first_failure 2 (by decide)
    (fun j _ => if j = 1 then ⟨WAIT_FAILED, 6⟩ else ⟨WAIT_OBJECT_0, 0⟩)
    [11, 12, 13, 14, 15, 16, 17] 1 6 (by decide)
    (by intro j hj; have : j = 0 := by omega
        subst this; decide)
    (by decide) (by decide)

theorem CreateNamedSyncObjects_events_ne_nil (N : Int) (os : BrowserOs) :
    (CreateNamedSyncObjects N os).2.2 ≠ [] := by
  unfold CreateNamedSyncObjects
  split
  · simp
  · split
    · simp
    · split <;> simp

/-- C7: the coordinator exits with status 1 without a single operating system call (no
primitive created, no worker launched) exactly when its inputs are invalid: N or M is
not extracted, or N <= 0, or M <= N. Hence primitives are created only when N > 0 and
M > N. -/
theorem main_rejects_exactly_invalid_parameters (K : Nat) (nIn mIn : Option Int)
    (os : BrowserOs) :
    main K nIn mIn os = some (1, []) ↔
      (nIn = none ∨ mIn = none ∨
        ∃ N M, nIn = some N ∧ mIn = some M ∧ (N ≤ 0 ∨ M ≤ N)) := by
  constructor
  · intro h
    cases nIn with
    | none => exact Or.inl rfl
    | some N =>
      cases mIn with
      | none => exact Or.inr (Or.inl rfl)
      | some M =>
        refine Or.inr (Or.inr ⟨N, M, rfl, rfl, ?_⟩)
        by_contra hvalid
        simp only [not_or, not_le] at hvalid
        obtain ⟨hN, hM⟩ := hvalid
        have hN2 : ¬ N ≤ 0 := by omega
        have hM2 : ¬ M ≤ N := by omega
        simp only [main, hN2, hM2, if_false] at h
        have hne := CreateNamedSyncObjects_events_ne_nil N os
        split at h
        · simp at h
          exact hne h.1
        · split at h
          · simp at h
            exact hne h.1
          · split at h
            · cases h
            · simp at h
  · intro h
    rcases h with rfl | h | ⟨N, M, rfl, rfl, h⟩
    · rfl
    · subst h
      cases nIn with
      | none => rfl
      | some N =>
        by_cases hN : N ≤ 0 <;> simp [main, hN]
    · by_cases hN : N ≤ 0
      · simp [main, hN]
      · have hM : M ≤ N := by
          rcases h with h | h
          · exact absurd h hN
          · exact h
        simp [main, hN, hM]

theorem main_rejects_N5_M3 :
    main 64 (some 5) (some 3)
      ⟨true, true, true, fun i _ => some (100 + i), true, fun _ _ => ⟨0, 0⟩⟩ = some (1, []) :=
  (main_rejects_exactly_invalid_parameters 64 (some 5) (some 3)
    ⟨true, true, true, fun i _ => some (100 + i), true, fun _ _ => ⟨0, 0⟩⟩).mpr
    (Or.inr (Or.inr ⟨5, 3, rfl, rfl, Or.inr (by decide)⟩))

theorem launch_foldl (createProcess : Nat → String → Option HANDLE) (l : List Nat) :
    ∀ acc : List HANDLE × List (Nat × String),
      l.foldl (launchStep createProcess) acc =
        (acc.1 ++ l.filterMap (fun i => createProcess i (commandLine i)),
         acc.2 ++ l.map (fun i => (i, commandLine i))) := by
  induction l with
  | nil => intro acc; simp
  | cons i rest ih =>
    intro acc
    rw [List.foldl_cons, ih]
    unfold launchStep
    cases h : createProcess i (commandLine i) <;> simp [h]

theorem launch_attempts (M : Nat) (createProcess : Nat → String → Option HANDLE) :
    (LaunchDownloaderProcesses M createProcess).attempts =
      (List.range M).map (fun i => (i, commandLine i)) := by
  simp [LaunchDownloaderProcesses, launch_foldl]

theorem launch_handles (M : Nat) (createProcess : Nat → String → Option HANDLE) :
    (LaunchDownloaderProcesses M createProcess).handles =
      (List.range M).filterMap (fun i => createProcess i (commandLine i)) := by
  simp [LaunchDownloaderProcesses, launch_foldl]

theorem launch_ok_false_iff (M : Nat) (createProcess : Nat → String → Option HANDLE) :
    (LaunchDownloaderProcesses M createProcess).ok = false ↔
      ∀ i, i < M → createProcess i (commandLine i) = none := by
  simp [LaunchDownloaderProcesses, launch_foldl, List.isEmpty_iff, List.filterMap_eq_nil_iff]

/-- C9: LaunchDownloaderProcesses calls CreateProcessA for every ordinal 0..M-1 in order,
whatever fails; the handles it returns are those of the successful launches in ordinal
order; it returns false exactly when no launch succeeded; and then the coordinator,
having created its primitives, closes them and exits with status 1 without setting the
event or waiting. -/
theorem LaunchDownloaderProcesses_spec (M : Nat)
    (createProcess : Nat → String → Option HANDLE) :
    (LaunchDownloaderProcesses M createProcess).attempts.map Prod.fst = List.range M ∧
    (LaunchDownloaderProcesses M createProcess).handles =
      (List.range M).filterMap (fun i => createProcess i (commandLine i)) ∧
    ((LaunchDownloaderProcesses M createProcess).ok = false ↔
      ∀ i, i < M → createProcess i (commandLine i) = none) ∧
    ((LaunchDownloaderProcesses M createProcess).ok = false ↔
      (LaunchDownloaderProcesses M createProcess).handles = []) ∧
    (∀ (K : Nat) (N : Int) (os : BrowserOs), 0 < N → N < (M : Int) →
      os.semaphoreCreated = true → os.mutexCreated = true → os.eventCreated = true →
      os.createProcess = createProcess →
      (LaunchDownloaderProcesses M createProcess).ok = false →
      main K (some N) (some (M : Int)) os = some (1,
        [BEvent.createSemaphore N N, BEvent.createMutex false, BEvent.createEvent true false] ++
        (List.range M).map (fun i => BEvent.createProcess i (commandLine i)) ++
        [BEvent.closeSemaphore, BEvent.closeMutex, BEvent.closeEvent])) := by
  refine ⟨?_, launch_handles M createProcess, launch_ok_false_iff M createProcess, ?_, ?_⟩
  · rw [launch_attempts, List.map_map]
    exact List.map_id _
  · simp [LaunchDownloaderProcesses]
  · intro K N os hN hM hs hm he hcp hfail
    have hN2 : ¬ N ≤ 0 := by omega
    have hM2 : ¬ (M : Int) ≤ N := by omega
    subst hcp
    simp only [main, hN2, hM2, if_false, CreateNamedSyncObjects, hs, hm, he, Int.toNat_ofNat,
      hfail, launch_attempts, CloseSyncObjects, List.map_map]
    simp

theorem LaunchDownloaderProcesses_spec_witness :
    main 64 (some 1) (some ((2 : Nat) : Int)) ⟨true, true, true, fun _ _ => none, true, fun _ _ => ⟨0, 0⟩⟩
      = some (1,
        [BEvent.createSemaphore 1 1, BEvent.createMutex false, BEvent.createEvent true false] ++
        (List.range 2).map (fun i => BEvent.createProcess i (commandLine i)) ++
        [BEvent.closeSemaphore, BEvent.closeMutex, BEvent.closeEvent]) :=
  (LaunchDownloaderProcesses_spec 2 (fun _ _ => none)).2.2.2.2 64 1
    ⟨true, true, true, fun _ _ => none, true, fun _ _ => ⟨0, 0⟩⟩
    (by decide) (by decide) rfl rfl rfl rfl (by decide)

/-- C8: with valid parameters, created primitives and two launched workers, a bulk wait
that fails with error 6 makes WaitAllProcesses return 6, and the coordinator still exits
with status 0. -/
theorem main_exits_zero_on_wait_failure :
    WaitAllProcesses 64 (fun _ _ => ⟨WAIT_FAILED, 6⟩) [100, 101]
      = some (6, [⟨[100, 101], true⟩]) ∧
    (main 64 (some 1) (some 2)
      ⟨true, true, true, fun i _ => some (100 + i), true, fun _ _ => ⟨WAIT_FAILED, 6⟩⟩).map
        Prod.fst = some 0 := by
  constructor
  · decide
  · decide

end Browser2

/-! ## The admission protocol -/

namespace Protocol

open Win32 Downloader2

theorem countP_set {α : Type} (p : α → Bool) (w1 : α) :
    ∀ (l : List α) (i : Nat) (w : α), l[i]? = some w →
      (l.set i w1).countP p + (if p w then 1 else 0) =
        l.countP p + (if p w1 then 1 else 0) := by
  intro l
  induction l with
  | nil => intro i w h; simp at h
  | cons a rest ih =>
    intro i w h
    cases i with
    | zero =>
      simp at h
      subst h
      simp only [List.set_cons_zero, List.countP_cons]
      omega
    | succ i =>
      simp at h
      have := ih i w (by simpa using h)
      simp only [List.set_cons_succ, List.countP_cons]
      omega

theorem mem_of_getElem? {α : Type} :
    ∀ (l : List α) (i : Nat) (w : α), l[i]? = some w → w ∈ l := by
  intro l
  induction l with
  | nil => intro i w h; simp at h
  | cons a rest ih =>
    intro i w h
    cases i with
    | zero =>
      simp at h
      subst h
      exact List.mem_cons_self _ _
    | succ i =>
      simp at h
      exact List.mem_cons_of_mem _ (ih i w h)

theorem set_getElem?_self {α : Type} :
    ∀ (l : List α) (i : Nat) (w : α), l[i]? = some w → l.set i w = l := by
  intro l
  induction l with
  | nil => intro i w _; rfl
  | cons a rest ih =>
    intro i w h
    cases i with
    | zero =>
      simp at h
      subst h
      rfl
    | succ i =>
      simp at h
      simp only [List.set_cons_succ, ih i w h]

theorem holders_pos_of_working (s : System) (w : Worker) (hw : w ∈ s.workers)
    (hst : w.state = ProcState.working) : 0 < s.holders := by
  unfold System.holders
  rw [List.countP_pos_iff]
  exact ⟨w, hw, by simp [hst]⟩

theorem init_inv (N : Nat) (envs : List DownloaderEnv) :
    (System.init (N : Int) envs).Inv N := by
  refine ⟨?_, ?_, ?_⟩
  · simp [System.init, Browser2.kernelOfCreation, Browser2.CreateNamedSyncObjects]
  · have : (System.init (N : Int) envs).holders = 0 := by
      simp [System.holders, System.init, List.countP_eq_zero]
    rw [this]
    simp [System.init, Browser2.kernelOfCreation, Browser2.CreateNamedSyncObjects]
  · intro w hw
    simp only [System.init, List.mem_map] at hw
    obtain ⟨e, _, rfl⟩ := hw
    simp [Worker.consistent]

theorem step_inv (N : Nat) (s : System) (a : Action) (h : s.Inv N) : (s.step a).Inv N := by
  obtain ⟨hmax, hsum, hcons⟩ := h
  cases a with
  | setEvent => exact ⟨hmax, hsum, hcons⟩
  | run i =>
    simp only [System.step]
    cases hget : s.workers[i]? with
    | none => exact ⟨hmax, hsum, hcons⟩
    | some w =>
      have hw : w ∈ s.workers := mem_of_getElem? _ _ _ hget
      have hwc := hcons w hw
      have hcount := fun w1 => countP_set
        (fun w : Worker => decide (w.state = ProcState.working)) w1 s.workers i w hget
      simp only []
      cases hst : w.state with
      | queued =>
        simp only [Worker.consistent, hst] at hwc
        have hnotw : decide (w.state = ProcState.working) = false := by simp [hst]
        by_cases hopen : OpenNamedSyncObjects w.env = true
        · cases hf : w.env.waitFault with
          | some err =>
            have hm := mainUntilWait_fault w.env s.kernel hopen err hf
            simp only [Worker.advance, hst, hm]
            refine ⟨hmax, ?_, ?_⟩
            · have := hcount ⟨w.env, .exited 1, w.out ++
                [.waitReturned WAIT_FAILED, .logWaitFailed err, .closeSyncObjects]⟩
              simp only [hnotw] at this
              simp only [System.holders] at hsum ⊢
              simp at this
              omega
            · intro w2 hw2
              rcases List.mem_or_eq_of_mem_set hw2 with h2 | rfl
              · exact hcons w2 h2
              · simp [Worker.consistent, hwc, acquisitions, releaseEvents, WAIT_FAILED,
                  WAIT_OBJECT_0]
          | none =>
            by_cases he : s.kernel.eventSet = true
            · have hm := mainUntilWait_cancelled w.env s.kernel hopen hf he
              simp only [Worker.advance, hst, hm]
              refine ⟨hmax, ?_, ?_⟩
              · have := hcount ⟨w.env, .exited 0, w.out ++
                  [.waitReturned WAIT_OBJECT_0, .logInterrupted, .closeSyncObjects]⟩
                simp only [hnotw] at this
                simp only [System.holders] at hsum ⊢
                simp at this
                omega
              · intro w2 hw2
                rcases List.mem_or_eq_of_mem_set hw2 with h2 | rfl
                · exact hcons w2 h2
                · simp [Worker.consistent, hwc, acquisitions, releaseEvents, WAIT_OBJECT_0]
            · have he2 : s.kernel.eventSet = false := by simpa using he
              by_cases hc : 0 < s.kernel.semCount
              · have hm := mainUntilWait_acquired w.env s.kernel hopen hf he2 hc
                simp only [Worker.advance, hst, hm]
                refine ⟨hmax, ?_, ?_⟩
                · have := hcount ⟨w.env, .working, w.out ++
                    [.waitReturned (WAIT_OBJECT_0 + 1)]⟩
                  simp only [hnotw] at this
                  simp only [System.holders] at hsum ⊢
                  simp at this
                  omega
                · intro w2 hw2
                  rcases List.mem_or_eq_of_mem_set hw2 with h2 | rfl
                  · exact hcons w2 h2
                  · simp [Worker.consistent, hwc, acquisitions, releaseEvents]
              · have hc2 : s.kernel.semCount = 0 := by omega
                have hm := mainUntilWait_blocked w.env s.kernel hopen hf he2 hc2
                simp only [Worker.advance, hst, hm]
                rw [set_getElem?_self _ _ _ hget]
                exact ⟨hmax, hsum, hcons⟩
        · have hopen2 : OpenNamedSyncObjects w.env = false := by simpa using hopen
          have hm := mainUntilWait_open_failed w.env s.kernel hopen2
          simp only [Worker.advance, hst, hm]
          refine ⟨hmax, ?_, ?_⟩
          · have := hcount ⟨w.env, .exited 1, w.out ++ [.logOpenFailed]⟩
            simp only [hnotw] at this
            simp only [System.holders] at hsum ⊢
            simp at this
            omega
          · intro w2 hw2
            rcases List.mem_or_eq_of_mem_set hw2 with h2 | rfl
            · exact hcons w2 h2
            · simp [Worker.consistent, hwc, acquisitions, releaseEvents]
      | working =>
        simp only [Worker.consistent, hst] at hwc
        have hpos := holders_pos_of_working s w hw hst
        have hlt : s.kernel.semCount + 1 ≤ s.kernel.semMax := by omega
        have hisw : decide (w.state = ProcState.working) = true := by simp [hst]
        simp only [Worker.advance, hst, mainAfterWait, ReleaseSemaphore, hlt, if_true]
        refine ⟨hmax, ?_, ?_⟩
        · have := hcount ⟨w.env,
            .exited (if CheckBracketsBalanced w.env.fileContent = true then 0 else 1),
            w.out ++ ([.logConnection, .workUnit,
              .logProcessed (CheckBracketsBalanced w.env.fileContent),
              .releaseSemaphore 1 true] ++ [] ++ [.closeSyncObjects])⟩
          simp only [hisw] at this
          simp only [System.holders] at hsum hpos ⊢
          simp at this
          simp
          omega
        · intro w2 hw2
          rcases List.mem_or_eq_of_mem_set hw2 with h2 | rfl
          · exact hcons w2 h2
          · simp [Worker.consistent, acquisitions, releaseEvents] at hwc ⊢
            exact hwc
      | exited code =>
        simp only [Worker.advance, hst]
        rw [set_getElem?_self _ _ _ hget]
        exact ⟨hmax, hsum, hcons⟩

theorem exec_inv (N : Nat) (schedule : List Action) :
    ∀ s : System, s.Inv N → (s.exec schedule).Inv N := by
  induction schedule with
  | nil => intro s h; exact h
  | cons a rest ih =>
    intro s h
    exact ih (s.step a) (step_inv N s a h)


/-- C3: in every state the protocol reaches from the objects created for capacity N, under
any schedule of coordinator and downloader steps and any number of downloaders, the
semaphore count plus the number of downloaders holding a slot equals N, so at most N
downloaders hold a slot. -/
theorem holders_bounded (N : Nat) (envs : List DownloaderEnv) (schedule : List Action) :
    ((System.init (N : Int) envs).exec schedule).kernel.semCount +
        ((System.init (N : Int) envs).exec schedule).holders = N ∧
    ((System.init (N : Int) envs).exec schedule).holders ≤ N := by
  have h := exec_inv N schedule _ (init_inv N envs)
  exact ⟨h.2.1, by have := h.2.1; omega⟩

theorem getElem?_set_self_of_getElem? {α : Type} (w1 : α) :
    ∀ (l : List α) (i : Nat) (w : α), l[i]? = some w → (l.set i w1)[i]? = some w1 := by
  intro l
  induction l with
  | nil => intro i w h; simp at h
  | cons a rest ih =>
    intro i w h
    cases i with
    | zero => simp
    | succ i =>
      simp at h
      simpa using ih i w h

/-- C5: in every reachable state, (1) a downloader that has exited either acquired a slot
once and made exactly one ReleaseSemaphore call, of one unit and successful, or acquired
none and made no release call; (2) once every downloader has exited the semaphore count
is N again; (3) a downloader that holds a slot and is run performs its work unit, makes
one ReleaseSemaphore call of one unit, which succeeds and raises the count by one, and
exits with the status of its work unit, whether that is success or failure; (4) a queued
downloader has made no call at all and a working one has one acquisition and no release
yet. -/
theorem slots_conserved (N : Nat) (envs : List DownloaderEnv) (schedule : List Action) :
    (∀ w ∈ ((System.init (N : Int) envs).exec schedule).workers, ∀ code : Int,
      w.state = ProcState.exited code →
        (acquisitions w.out = 1 ∧ releaseEvents w.out = [DEvent.releaseSemaphore 1 true]) ∨
        (acquisitions w.out = 0 ∧ releaseEvents w.out = [])) ∧
    ((∀ w ∈ ((System.init (N : Int) envs).exec schedule).workers,
        ∃ code : Int, w.state = ProcState.exited code) →
      ((System.init (N : Int) envs).exec schedule).kernel.semCount = N) ∧
    (∀ (i : Nat) (w : Worker),
      ((System.init (N : Int) envs).exec schedule).workers[i]? = some w →
      w.state = ProcState.working →
        (((System.init (N : Int) envs).exec schedule).step (.run i)).workers[i]? =
          some ⟨w.env,
            .exited (if CheckBracketsBalanced w.env.fileContent = true then 0 else 1),
            w.out ++ [.logConnection, .workUnit,
              .logProcessed (CheckBracketsBalanced w.env.fileContent),
              .releaseSemaphore 1 true, .closeSyncObjects]⟩ ∧
        (((System.init (N : Int) envs).exec schedule).step (.run i)).kernel.semCount =
          ((System.init (N : Int) envs).exec schedule).kernel.semCount + 1 ∧
        acquisitions w.out = 1 ∧
        releaseEvents (w.out ++ [.logConnection, .workUnit,
              .logProcessed (CheckBracketsBalanced w.env.fileContent),
              .releaseSemaphore 1 true, .closeSyncObjects]) =
          [DEvent.releaseSemaphore 1 true]) ∧
    (∀ w ∈ ((System.init (N : Int) envs).exec schedule).workers,
      (w.state = ProcState.queued → w.out = []) ∧
      (w.state = ProcState.working → acquisitions w.out = 1 ∧ releaseEvents w.out = [])) := by
  have h := exec_inv N schedule _ (init_inv N envs)
  refine ⟨?_, ?_, ?_, ?_⟩
  · intro w hw code hst
    have := h.2.2 w hw
    simpa [Worker.consistent, hst] using this
  · intro hall
    have hzero : ((System.init (N : Int) envs).exec schedule).holders = 0 := by
      unfold System.holders
      rw [List.countP_eq_zero]
      intro w hw
      obtain ⟨code, hc⟩ := hall w hw
      simp [hc]
    have := h.2.1
    omega
  · intro i w hget hst
    have hw := mem_of_getElem? _ _ _ hget
    have hpos := holders_pos_of_working _ w hw hst
    have hsum := h.2.1
    have hmax := h.1
    have hlt : ((System.init (N : Int) envs).exec schedule).kernel.semCount + 1 ≤
        ((System.init (N : Int) envs).exec schedule).kernel.semMax := by omega
    have hwc := h.2.2 w hw
    simp only [Worker.consistent, hst] at hwc
    refine ⟨?_, ?_, hwc.1, ?_⟩
    · simp only [System.step, hget, Worker.advance, hst, mainAfterWait, ReleaseSemaphore, hlt,
        if_true]
      rw [getElem?_set_self_of_getElem? _ _ _ _ hget]
      simp
    · simp only [System.step, hget, Worker.advance, hst, mainAfterWait, ReleaseSemaphore, hlt,
        if_true]
    · have hrel := hwc.2
      simp only [releaseEvents] at hrel ⊢
      rw [List.filter_append, hrel]
      simp
  · intro w hw
    have hwc := h.2.2 w hw
    refine ⟨?_, ?_⟩
    · intro hst
      simpa [Worker.consistent, hst] using hwc
    · intro hst
      simpa [Worker.consistent, hst] using hwc

theorem slots_conserved_witness :
    ((System.init ((1 : Nat) : Int)
        [⟨true, true, true, none, ['(', ')']⟩, ⟨true, true, true, none, ['(']⟩]).exec
        [.run 0, .run 1, .run 0, .run 1, .run 1]).kernel.semCount = 1 ∧
    ((((System.init ((1 : Nat) : Int)
        [⟨true, true, true, none, ['(', ')']⟩, ⟨true, true, true, none, ['(']⟩]).exec
        [.run 0, .run 1, .run 0, .run 1]).step (.run 1)).workers[1]? =
          some ⟨⟨true, true, true, none, ['(']⟩,
            .exited (if CheckBracketsBalanced
              (⟨true, true, true, none, ['(']⟩ : DownloaderEnv).fileContent = true
              then 0 else 1),
            [.waitReturned (WAIT_OBJECT_0 + 1)] ++ [.logConnection, .workUnit,
              .logProcessed (CheckBracketsBalanced
                (⟨true, true, true, none, ['(']⟩ : DownloaderEnv).fileContent),
              .releaseSemaphore 1 true, .closeSyncObjects]⟩ ∧
      (((System.init ((1 : Nat) : Int)
        [⟨true, true, true, none, ['(', ')']⟩, ⟨true, true, true, none, ['(']⟩]).exec
        [.run 0, .run 1, .run 0, .run 1]).step (.run 1)).kernel.semCount =
          ((System.init ((1 : Nat) : Int)
            [⟨true, true, true, none, ['(', ')']⟩, ⟨true, true, true, none, ['(']⟩]).exec
            [.run 0, .run 1, .run 0, .run 1]).kernel.semCount + 1 ∧
      acquisitions [DEvent.waitReturned (WAIT_OBJECT_0 + 1)] = 1 ∧
      releaseEvents ([.waitReturned (WAIT_OBJECT_0 + 1)] ++ [.logConnection, .workUnit,
              .logProcessed (CheckBracketsBalanced
                (⟨true, true, true, none, ['(']⟩ : DownloaderEnv).fileContent),
              .releaseSemaphore 1 true, .closeSyncObjects]) =
          [DEvent.releaseSemaphore 1 true]) ∧
    ((acquisitions [DEvent.waitReturned (WAIT_OBJECT_0 + 1), .logConnection, .workUnit,
          .logProcessed true, .releaseSemaphore 1 true, .closeSyncObjects] = 1 ∧
        releaseEvents [DEvent.waitReturned (WAIT_OBJECT_0 + 1), .logConnection, .workUnit,
          .logProcessed true, .releaseSemaphore 1 true, .closeSyncObjects] =
          [DEvent.releaseSemaphore 1 true]) ∨
      (acquisitions [DEvent.waitReturned (WAIT_OBJECT_0 + 1), .logConnection, .workUnit,
          .logProcessed true, .releaseSemaphore 1 true, .closeSyncObjects] = 0 ∧
        releaseEvents [DEvent.waitReturned (WAIT_OBJECT_0 + 1), .logConnection, .workUnit,
          .logProcessed true, .releaseSemaphore 1 true, .closeSyncObjects] = [])) :=
  ⟨(slots_conserved 1
      [⟨true, true, true, none, ['(', ')']⟩, ⟨true, true, true, none, ['(']⟩]
      [.run 0, .run 1, .run 0, .run 1, .run 1]).2.1
      (by
        have hrun : ((System.init ((1 : Nat) : Int)
            [⟨true, true, true, none, ['(', ')']⟩, ⟨true, true, true, none, ['(']⟩]).exec
            [.run 0, .run 1, .run 0, .run 1, .run 1]).workers.map (fun w => w.state) =
            [.exited 0, .exited 1] := by decide
        intro w hw
        have hmem : w.state ∈ [ProcState.exited 0, ProcState.exited 1] := by
          rw [← hrun]
          exact List.mem_map_of_mem _ hw
        simp only [List.mem_cons, List.mem_singleton, List.not_mem_nil, or_false] at hmem
        rcases hmem with h0 | h1
        · exact ⟨0, h0⟩
        · exact ⟨1, h1⟩),
   (slots_conserved 1
      [⟨true, true, true, none, ['(', ')']⟩, ⟨true, true, true, none, ['(']⟩]
      [.run 0, .run 1, .run 0, .run 1]).2.2.1 1
      ⟨⟨true, true, true, none, ['(']⟩, .working, [.waitReturned (WAIT_OBJECT_0 + 1)]⟩
      (by decide) rfl,
   (slots_conserved 1
      [⟨true, true, true, none, ['(', ')']⟩, ⟨true, true, true, none, ['(']⟩]
      [.run 0, .run 1, .run 0, .run 1, .run 1]).1
      ⟨⟨true, true, true, none, ['(', ')']⟩, .exited 0,
        [.waitReturned (WAIT_OBJECT_0 + 1), .logConnection, .workUnit,
          .logProcessed true, .releaseSemaphore 1 true, .closeSyncObjects]⟩
      (by decide) 0 rfl⟩

theorem protocol_run_one_slot :
    ((System.init 1
        [⟨true, true, true, none, ['(', ')']⟩, ⟨true, true, true, none, ['(']⟩]).exec
        [.run 0, .run 1]) =
      ⟨⟨0, 1, false⟩,
       [⟨⟨true, true, true, none, ['(', ')']⟩, .working, [.waitReturned 1]⟩,
        ⟨⟨true, true, true, none, ['(']⟩, .queued, []⟩]⟩ ∧
    ((System.init 1
        [⟨true, true, true, none, ['(', ')']⟩, ⟨true, true, true, none, ['(']⟩]).exec
        [.run 0, .run 1, .run 0, .run 1, .run 1]) =
      ⟨⟨1, 1, false⟩,
       [⟨⟨true, true, true, none, ['(', ')']⟩, .exited 0,
          [.waitReturned 1, .logConnection, .workUnit, .logProcessed true,
           .releaseSemaphore 1 true, .closeSyncObjects]⟩,
        ⟨⟨true, true, true, none, ['(']⟩, .exited 1,
          [.waitReturned 1, .logConnection, .workUnit, .logProcessed false,
           .releaseSemaphore 1 true, .closeSyncObjects]⟩]⟩ ∧
    ((System.init 1
        [⟨true, true, true, none, ['(', ')']⟩, ⟨true, true, true, none, ['(']⟩]).exec
        [.run 0, .setEvent, .run 1, .run 0]) =
      ⟨⟨1, 1, true⟩,
       [⟨⟨true, true, true, none, ['(', ')']⟩, .exited 0,
          [.waitReturned 1, .logConnection, .workUnit, .logProcessed true,
           .releaseSemaphore 1 true, .closeSyncObjects]⟩,
        ⟨⟨true, true, true, none, ['(']⟩, .exited 0,
          [.waitReturned 0, .logInterrupted, .closeSyncObjects]⟩]⟩ := by
  decide

end Protocol
